import Mathlib

/-!
Verification of the metric-computation layer of the use-stage carbon
dashboard (`src/dbl_usestage_dashboard_v0.2.py`).

The Python source operates on pandas rows of floats; we embed the
numeric values as rationals (`ℚ`) — exact arithmetic standing for the
ideal real-number semantics of the float code — and the record rows as
Lean structures with the same field names as the database columns.
Python's `int(...)` conversion (truncation toward zero) is embedded as
`pyInt`.  DataFrames become lists of record structures; `sort_values`
becomes insertion sort by the sort key; pandas boolean-mask row
selection followed by `.iloc[0]` becomes `List.find?`.
-/

/-- One row of the `yearly_data` table (source lines 39–58): the yearly
consumption, emission, renewable-generation and offset figures. -/
structure YearlyRecord where
  year : ℤ
  energy_consumption : ℚ
  energy_emissions : ℚ
  water_consumption : ℚ
  water_emissions : ℚ
  waste_consumption : ℚ
  waste_emissions : ℚ
  transport_consumption : ℚ
  transport_emissions : ℚ
  solar_pv_kwh : ℚ
  solar_thermal_kwh : ℚ
  renewable_offset : ℚ
deriving DecidableEq

/-- One row of the `cost_rates` table (source lines 74–83). -/
structure CostRate where
  category : String
  unit_cost : ℚ
  currency : String
deriving DecidableEq

/-- Python's `int(x)` applied to a float: truncation toward zero. -/
def pyInt (q : ℚ) : ℤ :=
  if 0 ≤ q then ⌊q⌋ else ⌈q⌉

/-- Building constant `FLOOR_AREA_M2 = 18_000` (source line 23). -/
def FLOOR_AREA_M2 : ℚ := 18000

/-- `total_gross_emissions(row)` (source lines 93–99): sum of the four
category emission fields. -/
def total_gross_emissions (row : YearlyRecord) : ℚ :=
  row.energy_emissions + row.water_emissions + row.waste_emissions
    + row.transport_emissions

/-- `total_net_emissions(row)` (source lines 102–105):
`max(0.0, gross - offset)`. -/
def total_net_emissions (row : YearlyRecord) : ℚ :=
  max 0 (total_gross_emissions row - row.renewable_offset)

/-- `intensity_per_area(net_tco2)` (source lines 108–110):
`net_tco2 * 1000.0 / FLOOR_AREA_M2`, in kgCO2e per m² per year. -/
def intensity_per_area (net_tco2 : ℚ) : ℚ :=
  net_tco2 * 1000 / FLOOR_AREA_M2

/-- The percent-change-versus-baseline pattern the source repeats inline
for `delta_net` (lines 235–239), `delta_intensity` (lines 243–247) and
`delta_energy` (lines 251–255):
`((baseline - current) / baseline) * 100.0 if baseline else 0.0`.
Python float truthiness makes the guard `baseline ≠ 0`. -/
def percent_change (baseline current : ℚ) : ℚ :=
  if baseline ≠ 0 then (baseline - current) / baseline * 100 else 0

/-- `offset_share` (source line 259, and the per-row `share` of
`build_renewables_df`, line 142):
`offset / gross * 100.0 if gross else 0.0`. -/
def offset_share (row : YearlyRecord) : ℚ :=
  if total_gross_emissions row ≠ 0 then
    row.renewable_offset / total_gross_emissions row * 100
  else 0

/-- Claim C1: for every yearly record `r`, net emissions are
non-negative; they equal `gross - offset` whenever the offset does not
exceed gross emissions; and an offset larger than gross emissions is
clamped to exactly `0`. -/
theorem net_emissions_clamped (r : YearlyRecord) :
    0 ≤ total_net_emissions r ∧
    (r.renewable_offset ≤ total_gross_emissions r →
      total_net_emissions r = total_gross_emissions r - r.renewable_offset) ∧
    (total_gross_emissions r < r.renewable_offset →
      total_net_emissions r = 0) := by
  refine ⟨le_max_left _ _, fun h => ?_, fun h => ?_⟩
  · exact max_eq_right (by linarith)
  · exact max_eq_left (by linarith)

/-- Claim C1 witness: Scenario A/B record (emissions 10, 2, 1, 0.5):
with offset 5 the net is gross − offset = 8.5, and with offset 20 the
net clamps to 0. -/
theorem net_emissions_clamped_witness :
    total_net_emissions
        { year := 2020, energy_consumption := 0, energy_emissions := 10,
          water_consumption := 0, water_emissions := 2,
          waste_consumption := 0, waste_emissions := 1,
          transport_consumption := 0, transport_emissions := 1/2,
          solar_pv_kwh := 0, solar_thermal_kwh := 0,
          renewable_offset := 5 } = 27/2 - 5 ∧
    total_net_emissions
        { year := 2020, energy_consumption := 0, energy_emissions := 10,
          water_consumption := 0, water_emissions := 2,
          waste_consumption := 0, waste_emissions := 1,
          transport_consumption := 0, transport_emissions := 1/2,
          solar_pv_kwh := 0, solar_thermal_kwh := 0,
          renewable_offset := 20 } = 0 := by
  constructor
  · have h := (net_emissions_clamped
      { year := 2020, energy_consumption := 0, energy_emissions := 10,
        water_consumption := 0, water_emissions := 2,
        waste_consumption := 0, waste_emissions := 1,
        transport_consumption := 0, transport_emissions := 1/2,
        solar_pv_kwh := 0, solar_thermal_kwh := 0,
        renewable_offset := 5 }).2.1
      (by simp [total_gross_emissions]; norm_num)
    rw [h]
    simp [total_gross_emissions]
    norm_num
  · exact (net_emissions_clamped
      { year := 2020, energy_consumption := 0, energy_emissions := 10,
        water_consumption := 0, water_emissions := 2,
        waste_consumption := 0, waste_emissions := 1,
        transport_consumption := 0, transport_emissions := 1/2,
        solar_pv_kwh := 0, solar_thermal_kwh := 0,
        renewable_offset := 20 }).2.2
      (by simp [total_gross_emissions]; norm_num)

/-- Claim C6: `percent_change(baseline, current)` equals
`(baseline - current) / baseline * 100` for every nonzero baseline, and
is exactly `0` when the baseline is zero; hence `percent_change 0 x = 0`
for any `x` and `percent_change b b = 0` for any nonzero `b`. -/
theorem percent_change_spec (b c : ℚ) :
    (b ≠ 0 → percent_change b c = (b - c) / b * 100) ∧
    percent_change 0 c = 0 ∧
    (b ≠ 0 → percent_change b b = 0) := by
  refine ⟨fun h => ?_, ?_, fun h => ?_⟩
  · simp [percent_change, h]
  · simp [percent_change]
  · simp [percent_change, h]

/-- Claim C6 witness: Scenario C, `percent_change 100 80 = 20`, together
with the zero-baseline and equal-argument degenerate cases at concrete
inputs. -/
theorem percent_change_spec_witness :
    percent_change 100 80 = 20 ∧ percent_change 0 7 = 0 ∧
    percent_change 4 4 = 0 := by
  refine ⟨?_, (percent_change_spec 100 7).2.1, (percent_change_spec 4 4).2.2 (by norm_num)⟩
  rw [(percent_change_spec 100 80).1 (by norm_num)]
  norm_num

/-- Claim C7: the renewable offset share of a record equals
`offset / gross * 100` when gross emissions are nonzero, and is `0`
whenever gross emissions are zero, regardless of the offset. -/
theorem offset_share_spec (r : YearlyRecord) :
    (total_gross_emissions r ≠ 0 →
      offset_share r = r.renewable_offset / total_gross_emissions r * 100) ∧
    (total_gross_emissions r = 0 → offset_share r = 0) := by
  constructor
  · intro h
    simp [offset_share, h]
  · intro h
    simp [offset_share, h]

/-- Claim C7 witness: a record with gross emissions 10 and offset 5 has
share 50; a record with zero gross emissions and offset 5 has share 0. -/
theorem offset_share_spec_witness :
    offset_share
        { year := 2020, energy_consumption := 0, energy_emissions := 10,
          water_consumption := 0, water_emissions := 0,
          waste_consumption := 0, waste_emissions := 0,
          transport_consumption := 0, transport_emissions := 0,
          solar_pv_kwh := 0, solar_thermal_kwh := 0,
          renewable_offset := 5 } = 50 ∧
    offset_share
        { year := 2020, energy_consumption := 0, energy_emissions := 0,
          water_consumption := 0, water_emissions := 0,
          waste_consumption := 0, waste_emissions := 0,
          transport_consumption := 0, transport_emissions := 0,
          solar_pv_kwh := 0, solar_thermal_kwh := 0,
          renewable_offset := 5 } = 0 := by
  constructor
  · have h := (offset_share_spec
      { year := 2020, energy_consumption := 0, energy_emissions := 10,
        water_consumption := 0, water_emissions := 0,
        waste_consumption := 0, waste_emissions := 0,
        transport_consumption := 0, transport_emissions := 0,
        solar_pv_kwh := 0, solar_thermal_kwh := 0,
        renewable_offset := 5 }).1 (by simp [total_gross_emissions])
    rw [h]
    simp [total_gross_emissions]
    norm_num
  · exact (offset_share_spec
      { year := 2020, energy_consumption := 0, energy_emissions := 0,
        water_consumption := 0, water_emissions := 0,
        waste_consumption := 0, waste_emissions := 0,
        transport_consumption := 0, transport_emissions := 0,
        solar_pv_kwh := 0, solar_thermal_kwh := 0,
        renewable_offset := 5 }).2 (by simp [total_gross_emissions])

/-- Claim C8: `intensity_per_area` multiplies net tonnes by 1000 and
divides by the configured floor area; the configured area is the
positive constant 18000 m², and 90 tCO2e yields exactly
5 kgCO2e/m²·yr (Scenario F). -/
theorem intensity_per_area_spec :
    (∀ net : ℚ, intensity_per_area net = net * 1000 / FLOOR_AREA_M2) ∧
    FLOOR_AREA_M2 = 18000 ∧ 0 < FLOOR_AREA_M2 ∧
    intensity_per_area 90 = 5 := by
  refine ⟨fun net => rfl, rfl, by norm_num [FLOOR_AREA_M2], ?_⟩
  norm_num [intensity_per_area, FLOOR_AREA_M2]

/-- A yearly record with the given year and all numeric fields zero;
base point for concrete test records. -/
def zeroRec (y : ℤ) : YearlyRecord :=
  ⟨y, 0, 0, 0, 0, 0, 0, 0, 0, 0, 0, 0⟩

/-- The sort key of `df_yearly.sort_values("year")`: compare records by
their `year` field. -/
def byYear (a b : YearlyRecord) : Prop := a.year ≤ b.year

instance : DecidableRel byYear := fun a b =>
  inferInstanceAs (Decidable (a.year ≤ b.year))

instance : IsTotal YearlyRecord byYear := ⟨fun a b => le_total a.year b.year⟩

instance : IsTrans YearlyRecord byYear := ⟨fun _ _ _ h h2 => le_trans h h2⟩

/-- `df_yearly.sort_values("year")`: the records sorted by ascending
year. -/
def sort_values_year (df : List YearlyRecord) : List YearlyRecord :=
  List.insertionSort byYear df

/-- One output row of `build_historical_df` (source lines 118–132):
consumption columns pass through Python `int(...)`, emission columns and
the net keep native precision. -/
structure HistRow where
  year : ℤ
  energy_kwh : ℤ
  energy_tco2 : ℚ
  water_m3 : ℤ
  water_tco2 : ℚ
  waste_kg : ℤ
  waste_tco2 : ℚ
  transport_pkm : ℤ
  transport_tco2 : ℚ
  renewable_offset : ℚ
  net_emissions : ℚ
deriving DecidableEq

/-- The dictionary built for one record inside `build_historical_df`
(source lines 118–132). -/
def hist_row (r : YearlyRecord) : HistRow :=
  { year := r.year
    energy_kwh := pyInt r.energy_consumption
    energy_tco2 := r.energy_emissions
    water_m3 := pyInt r.water_consumption
    water_tco2 := r.water_emissions
    waste_kg := pyInt r.waste_consumption
    waste_tco2 := r.waste_emissions
    transport_pkm := pyInt r.transport_consumption
    transport_tco2 := r.transport_emissions
    renewable_offset := r.renewable_offset
    net_emissions := total_net_emissions r }

/-- `build_historical_df(df_yearly)` (source lines 113–133): one row per
record, in ascending-year order. -/
def build_historical_df (df_yearly : List YearlyRecord) : List HistRow :=
  (sort_values_year df_yearly).map hist_row

/-- One output row of `build_renewables_df` (source lines 143–152): the
PV, thermal and total kWh columns pass through Python `int(...)`; the
offset and its share keep native precision. -/
structure RenRow where
  year : ℤ
  solar_pv : ℤ
  solar_thermal : ℤ
  total_renewables : ℤ
  offset_tco2 : ℚ
  share : ℚ
deriving DecidableEq

/-- The dictionary built for one record inside `build_renewables_df`
(source lines 139–152): `total_ren = pv + thermal` is computed on the
raw values and only then truncated by `int(...)`. -/
def ren_row (r : YearlyRecord) : RenRow :=
  { year := r.year
    solar_pv := pyInt r.solar_pv_kwh
    solar_thermal := pyInt r.solar_thermal_kwh
    total_renewables := pyInt (r.solar_pv_kwh + r.solar_thermal_kwh)
    offset_tco2 := r.renewable_offset
    share := offset_share r }

/-- `build_renewables_df(df_yearly)` (source lines 136–153). -/
def build_renewables_df (df_yearly : List YearlyRecord) : List RenRow :=
  (sort_values_year df_yearly).map ren_row

/-- The sorted list is a permutation of the input. -/
theorem sort_values_year_perm (df : List YearlyRecord) :
    (sort_values_year df).Perm df :=
  List.perm_insertionSort byYear df

/-- The sorted list is sorted by year. -/
theorem sort_values_year_sorted (df : List YearlyRecord) :
    List.Sorted byYear (sort_values_year df) :=
  List.sorted_insertionSort byYear df

/-- Claim C4: `build_historical_df` keeps exactly one output row per
input record, its rows are ordered by ascending year, and the years are
strictly ascending whenever the input years carry no duplicate. -/
theorem build_historical_df_shape (records : List YearlyRecord) :
    (build_historical_df records).length = records.length ∧
    List.Sorted (· ≤ ·) ((build_historical_df records).map (·.year)) ∧
    ((records.map (·.year)).Nodup →
      List.Sorted (· < ·) ((build_historical_df records).map (·.year))) := by
  refine ⟨?_, ?_, ?_⟩
  · rw [build_historical_df, List.length_map]
    exact (sort_values_year_perm records).length_eq
  · have hs := sort_values_year_sorted records
    rw [build_historical_df, List.map_map]
    exact List.pairwise_map.mpr hs
  · intro hnd
    have hs := sort_values_year_sorted records
    have hperm : ((sort_values_year records).map (·.year)).Perm
        (records.map (·.year)) := (sort_values_year_perm records).map _
    have hnd2 : ((sort_values_year records).map (·.year)).Nodup :=
      hperm.nodup_iff.mpr hnd
    have hne : (sort_values_year records).Pairwise
        (fun a b => a.year ≠ b.year) := List.pairwise_map.mp hnd2
    rw [build_historical_df, List.map_map]
    refine List.pairwise_map.mpr ?_
    exact (hs.and hne).imp fun h => lt_of_le_of_ne h.1 h.2

/-- Claim C4 witness: two records with years 2021 and 2020 produce two
rows with strictly ascending years 2020, 2021. -/
theorem build_historical_df_shape_witness :
    (build_historical_df [zeroRec 2021, zeroRec 2020]).length = 2 ∧
    List.Sorted (· < ·)
      ((build_historical_df [zeroRec 2021, zeroRec 2020]).map (·.year)) := by
  have h := build_historical_df_shape [zeroRec 2021, zeroRec 2020]
  exact ⟨h.1, h.2.2 (by decide)⟩

/-- Truncation toward zero is the identity on whole numbers. -/
theorem pyInt_intCast (a : ℤ) : pyInt (a : ℚ) = a := by
  unfold pyInt
  split <;> simp

/-- Claim C5, amended part: every row of `build_historical_df` comes
from an input record, with each consumption figure equal to that
record's field truncated toward zero by Python `int(...)` (not rounded
to nearest), and the emission figures, offset and net emissions carried
over at native precision. -/
theorem hist_rows_fields (records : List YearlyRecord) (row : HistRow)
    (h : row ∈ build_historical_df records) :
    ∃ r ∈ records,
      row.year = r.year ∧
      row.energy_kwh = pyInt r.energy_consumption ∧
      row.energy_tco2 = r.energy_emissions ∧
      row.water_m3 = pyInt r.water_consumption ∧
      row.water_tco2 = r.water_emissions ∧
      row.waste_kg = pyInt r.waste_consumption ∧
      row.waste_tco2 = r.waste_emissions ∧
      row.transport_pkm = pyInt r.transport_consumption ∧
      row.transport_tco2 = r.transport_emissions ∧
      row.renewable_offset = r.renewable_offset ∧
      row.net_emissions = total_net_emissions r := by
  obtain ⟨r, hr, hrow⟩ := List.mem_map.mp h
  refine ⟨r, (sort_values_year_perm records).subset hr, ?_⟩
  subst hrow
  exact ⟨rfl, rfl, rfl, rfl, rfl, rfl, rfl, rfl, rfl, rfl, rfl⟩

/-- Claim C5 witness: the amended row description instantiated on a
concrete one-record dataset with fractional energy consumption 27/10. -/
theorem hist_rows_fields_witness :
    ∃ r ∈ [{ zeroRec 2020 with energy_consumption := 27/10 }],
      (hist_row { zeroRec 2020 with energy_consumption := 27/10 }).year = r.year ∧
      (hist_row { zeroRec 2020 with energy_consumption := 27/10 }).energy_kwh
        = pyInt r.energy_consumption ∧
      (hist_row { zeroRec 2020 with energy_consumption := 27/10 }).energy_tco2
        = r.energy_emissions ∧
      (hist_row { zeroRec 2020 with energy_consumption := 27/10 }).water_m3
        = pyInt r.water_consumption ∧
      (hist_row { zeroRec 2020 with energy_consumption := 27/10 }).water_tco2
        = r.water_emissions ∧
      (hist_row { zeroRec 2020 with energy_consumption := 27/10 }).waste_kg
        = pyInt r.waste_consumption ∧
      (hist_row { zeroRec 2020 with energy_consumption := 27/10 }).waste_tco2
        = r.waste_emissions ∧
      (hist_row { zeroRec 2020 with energy_consumption := 27/10 }).transport_pkm
        = pyInt r.transport_consumption ∧
      (hist_row { zeroRec 2020 with energy_consumption := 27/10 }).transport_tco2
        = r.transport_emissions ∧
      (hist_row { zeroRec 2020 with energy_consumption := 27/10 }).renewable_offset
        = r.renewable_offset ∧
      (hist_row { zeroRec 2020 with energy_consumption := 27/10 }).net_emissions
        = total_net_emissions r :=
  hist_rows_fields [{ zeroRec 2020 with energy_consumption := 27/10 }]
    (hist_row { zeroRec 2020 with energy_consumption := 27/10 })
    (List.mem_singleton.mpr rfl)

/-- Claim C5 counterexample: with energy consumption 27/10 the displayed
figure is the truncation 2, while rounding to the nearest whole unit
gives 3 — the table truncates, it does not round to nearest. -/
theorem hist_consumption_truncated_not_rounded :
    ((build_historical_df [{ zeroRec 2020 with energy_consumption := 27/10 }]).map
      (·.energy_kwh)) = [2] ∧
    round ((27 : ℚ)/10) = 3 ∧ (2 : ℤ) ≠ 3 := by
  refine ⟨?_, ?_, by decide⟩
  · show [(hist_row { zeroRec 2020 with energy_consumption := 27/10 }).energy_kwh] = [2]
    simp only [hist_row, zeroRec, pyInt]
    norm_num [Int.floor_eq_iff]
  · rw [round_eq]
    norm_num [Int.floor_eq_iff]

/-- Test record with whole-number PV 3 kWh and thermal 4 kWh. -/
def recPV34 : YearlyRecord :=
  { zeroRec 2020 with solar_pv_kwh := 3, solar_thermal_kwh := 4 }

/-- Test record with fractional PV and thermal of half a kWh each. -/
def recPVhalf : YearlyRecord :=
  { zeroRec 2020 with solar_pv_kwh := 1/2, solar_thermal_kwh := 1/2 }

/-- Claim C9, amended part: every row of `build_renewables_df` comes
from an input record; its total-renewables figure is the truncation of
the raw sum `pv + thermal`, which coincides with the sum of the row's
reported PV and thermal figures whenever both raw values are whole
numbers. -/
theorem ren_rows_total (records : List YearlyRecord) (row : RenRow)
    (h : row ∈ build_renewables_df records) :
    ∃ r ∈ records,
      row.solar_pv = pyInt r.solar_pv_kwh ∧
      row.solar_thermal = pyInt r.solar_thermal_kwh ∧
      row.total_renewables = pyInt (r.solar_pv_kwh + r.solar_thermal_kwh) ∧
      ∀ a b : ℤ, r.solar_pv_kwh = (a : ℚ) → r.solar_thermal_kwh = (b : ℚ) →
        row.total_renewables = row.solar_pv + row.solar_thermal := by
  obtain ⟨r, hr, hrow⟩ := List.mem_map.mp h
  refine ⟨r, (sort_values_year_perm records).subset hr, ?_⟩
  subst hrow
  refine ⟨rfl, rfl, rfl, fun a b ha hb => ?_⟩
  show pyInt (r.solar_pv_kwh + r.solar_thermal_kwh)
      = pyInt r.solar_pv_kwh + pyInt r.solar_thermal_kwh
  rw [ha, hb, ← Int.cast_add, pyInt_intCast, pyInt_intCast, pyInt_intCast]

/-- Claim C9 witness: the amended description instantiated on a
one-record dataset with whole-number PV 3 kWh and thermal 4 kWh, where
the reported total 7 is the sum of the reported figures. -/
theorem ren_rows_total_witness :
    ∃ r ∈ [recPV34],
      (ren_row recPV34).solar_pv = pyInt r.solar_pv_kwh ∧
      (ren_row recPV34).solar_thermal = pyInt r.solar_thermal_kwh ∧
      (ren_row recPV34).total_renewables
        = pyInt (r.solar_pv_kwh + r.solar_thermal_kwh) ∧
      ∀ a b : ℤ, r.solar_pv_kwh = (a : ℚ) → r.solar_thermal_kwh = (b : ℚ) →
        (ren_row recPV34).total_renewables
          = (ren_row recPV34).solar_pv + (ren_row recPV34).solar_thermal :=
  ren_rows_total [recPV34] (ren_row recPV34) (List.mem_singleton.mpr rfl)

/-- Claim C9 counterexample: with raw PV = thermal = 1/2 kWh the row
reports PV 0, thermal 0, but total renewables 1: the total is the
truncation of the raw sum, not the sum of the truncated row figures. -/
theorem ren_total_not_row_sum :
    ((build_renewables_df [recPVhalf]).map
      fun row => (row.total_renewables, row.solar_pv + row.solar_thermal))
      = [(1, 0)] ∧ ((1 : ℤ), (0 : ℤ)).1 ≠ ((1 : ℤ), (0 : ℤ)).2 := by
  refine ⟨?_, by decide⟩
  show [((ren_row recPVhalf).total_renewables,
        (ren_row recPVhalf).solar_pv + (ren_row recPVhalf).solar_thermal)]
    = [(1, 0)]
  simp only [ren_row, recPVhalf, zeroRec, pyInt]
  norm_num [Int.floor_eq_iff]

/-- The failure of the per-category rate lookup in `build_cost_df`
(source line 169): selecting the rows whose `category` matches and
taking the first one fails when no rate matches — the spec's
`MissingRateError`, carrying the category that had no rate. -/
structure MissingRateError where
  category : String
deriving DecidableEq

/-- One row of the cost table (source lines 173–181): next to the raw
consumption, rate and currency the code stores the product
`annual_cost = cons * rate`; the `share_of_total` column is attached
afterwards (lines 184–188). -/
structure CostRow where
  category : String
  consumption : ℚ
  unit : String
  unit_cost : ℚ
  currency : String
  annual_cost : ℚ
  share_of_total : ℚ
deriving DecidableEq

/-- `cat_map` (source lines 160–165): the four fixed categories with
their consumption column and display unit, in Python dict insertion
order. -/
def cat_map : List (String × String) :=
  [("energy", "kWh"), ("water", "m³"), ("waste", "kg"), ("transport", "pkm")]

/-- Field access `df_yearly_row[col_name]` for the consumption column of
a category (the `col_name` component of `cat_map`). -/
def consumption_of (r : YearlyRecord) (cat : String) : ℚ :=
  if cat = "energy" then r.energy_consumption
  else if cat = "water" then r.water_consumption
  else if cat = "waste" then r.waste_consumption
  else r.transport_consumption

/-- `df_cost_rates[df_cost_rates["category"] == cat_key].iloc[0]`
(source line 169): the first rate whose category matches, if any. -/
def lookup_rate (rates : List CostRate) (cat : String) : Option CostRate :=
  rates.find? (fun cr => cr.category == cat)

/-- The row-building loop of `build_cost_df` (source lines 167–181),
recursing over the remaining categories of `cat_map`; the
`share_of_total` column does not exist yet and is held at 0. -/
def build_cost_rows (r : YearlyRecord) (rates : List CostRate) :
    List (String × String) → Except MissingRateError (List CostRow)
  | [] => .ok []
  | (cat, u) :: rest =>
    match lookup_rate rates cat with
    | none => .error ⟨cat⟩
    | some cr =>
      match build_cost_rows r rates rest with
      | .error e => .error e
      | .ok tl =>
        .ok ({ category := cat.capitalize
               consumption := consumption_of r cat
               unit := u
               unit_cost := cr.unit_cost
               currency := cr.currency
               annual_cost := consumption_of r cat * cr.unit_cost
               share_of_total := 0 } :: tl)

/-- The column assignment of source lines 185–188: share is
`annual_cost / total * 100` when `total > 0`, else `0.0`. -/
def set_share (total : ℚ) (row : CostRow) : CostRow :=
  { row with share_of_total :=
      if total > 0 then row.annual_cost / total * 100 else 0 }

/-- `build_cost_df(df_yearly_row, df_cost_rates)` (source lines
156–190): builds one row per fixed category, totals the annual costs,
attaches the share column, and returns the table with the total. -/
def build_cost_df (r : YearlyRecord) (rates : List CostRate) :
    Except MissingRateError (List CostRow × ℚ) :=
  match build_cost_rows r rates cat_map with
  | .error e => .error e
  | .ok rows =>
    let total := (rows.map (·.annual_cost)).sum
    .ok (rows.map (set_share total), total)

/-- The row loop fails as soon as some listed category has no rate. -/
theorem build_cost_rows_missing (r : YearlyRecord) (rates : List CostRate) :
    ∀ cats : List (String × String),
      (∃ p ∈ cats, lookup_rate rates p.1 = none) →
      ∃ e : MissingRateError, build_cost_rows r rates cats = .error e := by
  intro cats
  induction cats with
  | nil => rintro ⟨p, hp, _⟩; exact absurd hp (List.not_mem_nil p)
  | cons hd tl ih =>
    rintro ⟨p, hp, hnone⟩
    obtain ⟨cat, u⟩ := hd
    rcases List.mem_cons.mp hp with heq | htl
    · subst heq
      exact ⟨⟨cat⟩, by simp [build_cost_rows, hnone]⟩
    · cases hlook : lookup_rate rates cat with
      | none => exact ⟨⟨cat⟩, by simp [build_cost_rows, hlook]⟩
      | some cr =>
        obtain ⟨e, he⟩ := ih ⟨p, htl, hnone⟩
        exact ⟨e, by simp [build_cost_rows, hlook, he]⟩

/-- Claim C2: `build_cost_df` fails with a `MissingRateError` whenever
the rates collection has no rate for one of the four fixed categories
(energy, water, waste, transport). -/
theorem build_cost_df_missing_rate (r : YearlyRecord) (rates : List CostRate)
    (h : ∃ p ∈ cat_map, lookup_rate rates p.1 = none) :
    ∃ e : MissingRateError, build_cost_df r rates = .error e := by
  obtain ⟨e, he⟩ := build_cost_rows_missing r rates cat_map h
  exact ⟨e, by simp [build_cost_df, he]⟩

/-- Scenario-E rates collection: rates for energy, water and transport,
but none for waste. -/
def ratesNoWaste : List CostRate :=
  [⟨"energy", 1/4, "EUR"⟩, ⟨"water", 3, "EUR"⟩, ⟨"transport", 1/20, "EUR"⟩]

/-- Claim C2 witness: Scenario E — a rates collection missing the
`waste` category makes `build_cost_df` fail with `MissingRateError`. -/
theorem build_cost_df_missing_rate_witness :
    ∃ e : MissingRateError, build_cost_df (zeroRec 2020) ratesNoWaste = .error e :=
  build_cost_df_missing_rate (zeroRec 2020) ratesNoWaste
    ⟨("waste", "kg"), by decide, by decide⟩

/-- When the row loop succeeds, it yields one row per listed category,
each with `annual_cost = consumption * unit_cost` and share still 0. -/
theorem build_cost_rows_ok (r : YearlyRecord) (rates : List CostRate) :
    ∀ (cats : List (String × String)) (rows : List CostRow),
      build_cost_rows r rates cats = .ok rows →
      rows.length = cats.length ∧
      ∀ row ∈ rows,
        row.annual_cost = row.consumption * row.unit_cost ∧
        row.share_of_total = 0 := by
  intro cats
  induction cats with
  | nil =>
    intro rows h
    simp only [build_cost_rows] at h
    cases h
    exact ⟨rfl, by simp⟩
  | cons hd tl ih =>
    intro rows h
    obtain ⟨cat, u⟩ := hd
    simp only [build_cost_rows] at h
    cases hlook : lookup_rate rates cat with
    | none => rw [hlook] at h; cases h
    | some cr =>
      rw [hlook] at h
      cases hrec : build_cost_rows r rates tl with
      | error e => rw [hrec] at h; cases h
      | ok tlrows =>
        rw [hrec] at h
        cases h
        obtain ⟨hlen, hrows⟩ := ih tlrows hrec
        refine ⟨by simp [hlen], ?_⟩
        intro row hrow
        rcases List.mem_cons.mp hrow with heq | htlmem
        · subst heq; exact ⟨rfl, rfl⟩
        · exact hrows row htlmem

/-- Claim C3: when `build_cost_df` succeeds, every row's annual cost is
its consumption times its unit cost, the returned total is the sum of
the rows' annual costs, there are exactly four rows, each share is
`annual_cost / total * 100` and the shares sum to exactly 100 whenever
the total is positive, and every share is 0 when the total is exactly
zero. -/
theorem build_cost_df_shares (r : YearlyRecord) (rates : List CostRate)
    (rows : List CostRow) (total : ℚ)
    (h : build_cost_df r rates = .ok (rows, total)) :
    (∀ row ∈ rows, row.annual_cost = row.consumption * row.unit_cost) ∧
    total = (rows.map (·.annual_cost)).sum ∧
    rows.length = 4 ∧
    (0 < total →
      (∀ row ∈ rows, row.share_of_total = row.annual_cost / total * 100) ∧
      (rows.map (·.share_of_total)).sum = 100) ∧
    (total = 0 → ∀ row ∈ rows, row.share_of_total = 0) := by
  simp only [build_cost_df] at h
  cases hb : build_cost_rows r rates cat_map with
  | error e => rw [hb] at h; cases h
  | ok base =>
    rw [hb] at h
    cases h
    obtain ⟨hlen, hbase⟩ := build_cost_rows_ok r rates cat_map base hb
    have hann : (base.map (set_share ((base.map (·.annual_cost)).sum))).map
        (·.annual_cost) = base.map (·.annual_cost) := by
      rw [List.map_map]; rfl
    refine ⟨?_, (congrArg List.sum hann).symm, ?_, ?_, ?_⟩
    · intro row hrow
      obtain ⟨b, hbmem, hbeq⟩ := List.mem_map.mp hrow
      have := (hbase b hbmem).1
      rw [← hbeq]
      exact this
    · rw [List.length_map, hlen]; rfl
    · intro hpos
      have hsh : ∀ row ∈ base.map (set_share ((base.map (·.annual_cost)).sum)),
          row.share_of_total = row.annual_cost
            / ((base.map (·.annual_cost)).sum) * 100 := by
        intro row hrow
        obtain ⟨b, hbmem, hbeq⟩ := List.mem_map.mp hrow
        rw [← hbeq]
        show (if ((base.map (·.annual_cost)).sum) > 0 then
            b.annual_cost / ((base.map (·.annual_cost)).sum) * 100 else 0)
          = (set_share ((base.map (·.annual_cost)).sum) b).annual_cost
            / ((base.map (·.annual_cost)).sum) * 100
        rw [if_pos hpos]
        rfl
      refine ⟨hsh, ?_⟩
      have hmapsh : (base.map (set_share ((base.map (·.annual_cost)).sum))).map
          (·.share_of_total)
          = base.map (fun b => b.annual_cost
              * (100 / ((base.map (·.annual_cost)).sum))) := by
        rw [List.map_map]
        refine List.map_congr_left fun b _ => ?_
        show (if ((base.map (·.annual_cost)).sum) > 0 then
            b.annual_cost / ((base.map (·.annual_cost)).sum) * 100 else 0)
          = b.annual_cost * (100 / ((base.map (·.annual_cost)).sum))
        rw [if_pos hpos]
        ring
      rw [hmapsh, List.sum_map_mul_right]
      field_simp
    · intro hzero
      intro row hrow
      obtain ⟨b, hbmem, hbeq⟩ := List.mem_map.mp hrow
      rw [← hbeq]
      show (if ((base.map (·.annual_cost)).sum) > 0 then
          b.annual_cost / ((base.map (·.annual_cost)).sum) * 100 else 0) = 0
      rw [if_neg (by rw [hzero]; exact lt_irrefl 0)]

/-- Scenario-D yearly record: consumption energy 1000 kWh, water 200 m³,
waste 500 kg, transport 3000 pkm; all other fields zero. -/
def recD : YearlyRecord := ⟨2021, 1000, 0, 200, 0, 500, 0, 3000, 0, 0, 0, 0⟩

/-- Scenario-D rates: energy 0.25, water 3, waste 0.1, transport 0.05. -/
def ratesD : List CostRate :=
  [⟨"energy", 1/4, "EUR"⟩, ⟨"water", 3, "EUR"⟩, ⟨"waste", 1/10, "EUR"⟩,
   ⟨"transport", 1/20, "EUR"⟩]

/-- The cost table Scenario D produces: annual costs 250, 600, 50, 150
against a total of 1050, with the corresponding exact shares. -/
def rowsD : List CostRow :=
  [⟨"Energy", 1000, "kWh", 1/4, "EUR", 250, 500/21⟩,
   ⟨"Water", 200, "m³", 3, "EUR", 600, 400/7⟩,
   ⟨"Waste", 500, "kg", 1/10, "EUR", 50, 100/21⟩,
   ⟨"Transport", 3000, "pkm", 1/20, "EUR", 150, 100/7⟩]

/-- Claim C3 witness: on Scenario D the builder returns the table
`rowsD` with total 1050, the four shares sum to exactly 100, and every
row's annual cost is its consumption times its unit cost. -/
theorem build_cost_df_shares_witness :
    build_cost_df recD ratesD = .ok (rowsD, 1050) ∧
    (rowsD.map (·.share_of_total)).sum = 100 ∧
    rowsD.length = 4 ∧
    (∀ row ∈ rowsD, row.annual_cost = row.consumption * row.unit_cost) := by
  have h : build_cost_df recD ratesD = .ok (rowsD, 1050) := by
    simp [build_cost_df, build_cost_rows, cat_map, lookup_rate,
      consumption_of, set_share, recD, ratesD, rowsD]
    norm_num
    exact ⟨rfl, rfl, rfl, rfl⟩
  have hs := build_cost_df_shares recD ratesD rowsD 1050 h
  exact ⟨h, (hs.2.2.2.1 (by norm_num)).2, hs.2.2.1, hs.1⟩

/-- The running minimum of `df_yearly["year"].min()` (source line 204),
folded over the remaining records. -/
def foldlMin : ℤ → List YearlyRecord → ℤ
  | a, [] => a
  | a, x :: xs => foldlMin (min a x.year) xs

/-- `baseline_year = int(df_yearly["year"].min())` (source line 204):
the minimum year of the dataset, absent when the dataset is empty (the
code guards with `df_yearly.empty` and stops, source lines 199–201). -/
def min_year : List YearlyRecord → Option ℤ
  | [] => none
  | r :: rs => some (foldlMin r.year rs)

/-- `df_yearly[df_yearly["year"] == y].iloc[0]` (source lines 224–225):
the first record carrying the given year, if any. -/
def row_for (df : List YearlyRecord) (y : ℤ) : Option YearlyRecord :=
  df.find? (fun r => r.year == y)

/-- `delta_net` (source lines 235–239). -/
def delta_net (row_baseline row_year : YearlyRecord) : ℚ :=
  percent_change (total_net_emissions row_baseline)
    (total_net_emissions row_year)

/-- `delta_intensity` (source lines 241–247). -/
def delta_intensity (row_baseline row_year : YearlyRecord) : ℚ :=
  percent_change (intensity_per_area (total_net_emissions row_baseline))
    (intensity_per_area (total_net_emissions row_year))

/-- `delta_energy` (source lines 249–255). -/
def delta_energy (row_baseline row_year : YearlyRecord) : ℚ :=
  percent_change row_baseline.energy_consumption row_year.energy_consumption

/-- The delta-from-baseline KPI pass (source lines 203–255): compute the
baseline year as the minimum year, look up the reporting-year row and
the baseline row, and produce the three percent deltas. -/
def kpi_deltas (df : List YearlyRecord) (year : ℤ) : Option (ℚ × ℚ × ℚ) :=
  match min_year df with
  | none => none
  | some b =>
    match row_for df year, row_for df b with
    | some ry, some rb =>
      some (delta_net rb ry, delta_intensity rb ry, delta_energy rb ry)
    | _, _ => none

/-- The running minimum never exceeds its seed. -/
theorem foldlMin_le_init (rs : List YearlyRecord) :
    ∀ a : ℤ, foldlMin a rs ≤ a := by
  induction rs with
  | nil => intro a; exact le_refl a
  | cons x xs ih =>
    intro a
    exact le_trans (ih (min a x.year)) (min_le_left _ _)

/-- The running minimum never exceeds any listed year. -/
theorem foldlMin_le_mem (rs : List YearlyRecord) :
    ∀ (a : ℤ), ∀ r ∈ rs, foldlMin a rs ≤ r.year := by
  induction rs with
  | nil => intro a r hr; cases hr
  | cons x xs ih =>
    intro a r hr
    rcases List.mem_cons.mp hr with heq | hmem
    · subst heq
      exact le_trans (foldlMin_le_init xs (min a r.year)) (min_le_right _ _)
    · exact ih (min a x.year) r hmem

/-- The running minimum is its seed or one of the listed years. -/
theorem foldlMin_attained (rs : List YearlyRecord) :
    ∀ a : ℤ, foldlMin a rs = a ∨ ∃ r ∈ rs, foldlMin a rs = r.year := by
  induction rs with
  | nil => intro a; exact Or.inl rfl
  | cons x xs ih =>
    intro a
    rcases ih (min a x.year) with h | ⟨r, hr, heq⟩
    · rcases min_cases a x.year with ⟨hm, _⟩ | ⟨hm, _⟩
      · left
        show foldlMin (min a x.year) xs = a
        rw [h, hm]
      · right
        refine ⟨x, List.mem_cons_self x xs, ?_⟩
        show foldlMin (min a x.year) xs = x.year
        rw [h, hm]
    · right
      exact ⟨r, List.mem_cons_of_mem x hr, heq⟩

/-- The percent change of a value against itself is zero. -/
theorem percent_change_self (x : ℚ) : percent_change x x = 0 := by
  unfold percent_change
  split
  · simp
  · rfl

/-- When some record carries the wanted year, the row lookup succeeds. -/
theorem row_for_of_exists (df : List YearlyRecord) (y : ℤ)
    (h : ∃ r ∈ df, r.year = y) : ∃ rb, row_for df y = some rb := by
  cases hf : row_for df y with
  | some rb => exact ⟨rb, rfl⟩
  | none =>
    obtain ⟨r, hr, hy⟩ := h
    have hnot := List.find?_eq_none.mp hf r hr
    simp [hy] at hnot

/-- Claim C10: on every non-empty dataset the baseline year is the
minimum year present, and selecting that baseline year as the reporting
year makes all three delta-from-baseline KPIs (net emissions, carbon
intensity, energy consumption) exactly zero. -/
theorem baseline_year_min_deltas_zero (df : List YearlyRecord)
    (hne : df ≠ []) :
    ∃ b, min_year df = some b ∧
      (∀ r ∈ df, b ≤ r.year) ∧
      kpi_deltas df b = some (0, 0, 0) := by
  match df, hne with
  | r :: rs, _ =>
    refine ⟨foldlMin r.year rs, rfl, ?_, ?_⟩
    · intro x hx
      rcases List.mem_cons.mp hx with heq | hmem
      · subst heq
        exact foldlMin_le_init rs x.year
      · exact foldlMin_le_mem rs r.year x hmem
    · have hex : ∃ x ∈ r :: rs, x.year = foldlMin r.year rs := by
        rcases foldlMin_attained rs r.year with h | ⟨x, hx, heq⟩
        · exact ⟨r, List.mem_cons_self r rs, h.symm⟩
        · exact ⟨x, List.mem_cons_of_mem r hx, heq.symm⟩
      obtain ⟨rb, hrb⟩ := row_for_of_exists (r :: rs) (foldlMin r.year rs) hex
      show kpi_deltas (r :: rs) (foldlMin r.year rs) = some (0, 0, 0)
      unfold kpi_deltas
      rw [show min_year (r :: rs) = some (foldlMin r.year rs) from rfl]
      simp only [hrb]
      simp [delta_net, delta_intensity, delta_energy, percent_change_self]

/-- Claim C10 witness: on the two-record dataset with years 2021 and
2020 the baseline year exists, bounds both years from below, and
reporting on it yields all three deltas zero. -/
theorem baseline_year_min_deltas_zero_witness :
    ∃ b, min_year [zeroRec 2021, zeroRec 2020] = some b ∧
      (∀ r ∈ [zeroRec 2021, zeroRec 2020], b ≤ r.year) ∧
      kpi_deltas [zeroRec 2021, zeroRec 2020] b = some (0, 0, 0) :=
  baseline_year_min_deltas_zero [zeroRec 2021, zeroRec 2020]
    (List.cons_ne_nil _ _)
